import Mathlib

/-!
Verification development for the fraud-detection anomaly engine.

Shallow embedding of the anomaly-scoring core:
  - src/fraud_detection/svm_classifier.py
      CentralAnomalyDetector (extract_features, process_event, train_model,
      get_stats) and the batch entry point process_watchdog_stream;
  - src/fraud_detection/inference.py
      the sliding-window novelty fragment of LLMWatchdogWrapper.generate
      (append embedding, slice the last 50, score via LocalOutlierFactor).

Modelling choices, stated once:
  - Python floats are modelled with exact rationals; every claim proved here
    is structural (control flow, state, list shapes, exact formulas), not a
    floating-point rounding fact.
  - sklearn is an external library: StandardScaler.fit_transform together
    with OneClassSVM.fit produce frozen parameters that are a deterministic
    function of the training matrix, so the fitted artifact is recorded as
    the training matrix itself (field fittedData) and post-training
    prediction (scaler.transform followed by model.predict being -1) is an
    abstract deterministic function, a parameter named predict of type
    List (List Rat) -> List Rat -> Bool. LocalOutlierFactor scoring is
    likewise an abstract function of the scored window, a parameter lof.
  - The state carries one ghost field, fit_count, counting executions of
    the fitting block inside train_model (the block fired only when the
    minimum-sample floor passes); it instruments the code, changing nothing
    observable, so that "the model is fit at most once" is directly statable.
-/

namespace FraudDetection

/-- Tagged union of the event kinds dispatched on by
CentralAnomalyDetector.extract_features. The unknown constructor stands for
an event whose type string is none of the five known kinds (the else branch
of extract_features). -/
inductive Event where
  | resource_usage (cpu_percent memory_percent : ℚ)
  | message_sent (prompt response : String)
  | tool_usage (tool_name : String) (params : List String)
  | message_received (message : String)
  | ood_detection (embedding_score : ℚ)
  | unknown (etype : String)
deriving DecidableEq

/-- Sum of the character codes of a string: sum(ord(c) for c in tool_name). -/
def charOrdSum (s : String) : ℕ :=
  (s.data.map Char.toNat).sum

/-- Embedding of CentralAnomalyDetector.extract_features
(svm_classifier.py lines 21-45): per-kind numeric feature vector, empty
vector for any other kind. -/
def extract_features : Event → List ℚ
  | .resource_usage cpu_percent memory_percent => [cpu_percent, memory_percent]
  | .message_sent prompt response =>
      [(prompt.length : ℚ), (response.length : ℚ),
        (prompt.length : ℚ) / ((max response.length 1 : ℕ) : ℚ)]
  | .tool_usage tool_name params =>
      [((charOrdSum tool_name % 100 : ℕ) : ℚ), (params.length : ℚ)]
  | .message_received message => [(message.length : ℚ)]
  | .ood_detection embedding_score => [embedding_score]
  | .unknown _ => []

/-- Dimensionality table written from the spec (section 3, FeatureVector):
2 for resource_usage, 3 for message_sent, 2 for tool_usage, 1 for
message_received, 1 for ood_detection, and 0 (empty) for any other kind.
This definition follows the spec words, to be compared with
extract_features, which follows the source. -/
def specFeatureDim : Event → ℕ
  | .resource_usage _ _ => 2
  | .message_sent _ _ => 3
  | .tool_usage _ _ => 2
  | .message_received _ => 1
  | .ood_detection _ => 1
  | .unknown _ => 0

/-- Mutable state of CentralAnomalyDetector (svm_classifier.py lines 13-19).
fittedData records the training matrix the scaler and the one-class SVM
were fitted on (empty while untrained); fit_count is the ghost counter of
fitting-block executions. -/
structure DetectorState where
  trained : Bool
  fittedData : List (List ℚ)
  feature_log : List (List ℚ)
  anomaly_count : ℕ
  total_processed : ℕ
  fit_count : ℕ
deriving DecidableEq

/-- Fresh detector as built by CentralAnomalyDetector.__init__. -/
def initState : DetectorState :=
  { trained := false
    fittedData := []
    feature_log := []
    anomaly_count := 0
    total_processed := 0
    fit_count := 0 }

/-- Embedding of CentralAnomalyDetector.train_model
(svm_classifier.py lines 80-91): below 10 samples nothing happens; otherwise
the scaler and SVM are fitted on the whole feature_log and trained is set. -/
def train_model (s : DetectorState) : DetectorState :=
  if s.feature_log.length < 10 then s
  else
    { s with
        fittedData := s.feature_log
        trained := true
        fit_count := s.fit_count + 1 }

/-- Result dictionary of process_event, restricted to the fields the claims
mention: processed mirrors the "processed" key, is_anomaly the
"is_anomaly" key (absent keys read as false, matching the
r.get call in process_watchdog_stream), and classified records whether the
trained branch ran, i.e. whether the "anomaly_status" key was set. -/
structure ProcessResult where
  processed : Bool
  is_anomaly : Bool
  classified : Bool
deriving DecidableEq

/-- Result returned when no features were extracted
(svm_classifier.py line 50). -/
def notProcessedResult : ProcessResult :=
  { processed := false, is_anomaly := false, classified := false }

/-- Embedding of CentralAnomalyDetector.process_event
(svm_classifier.py lines 47-78). predict abstracts the frozen
scaler.transform plus model.predict pipeline: it maps the fitted training
matrix and the raw feature vector to the is_anomaly verdict
(prediction == -1). -/
def process_event (predict : List (List ℚ) → List ℚ → Bool)
    (s : DetectorState) (e : Event) : DetectorState × ProcessResult :=
  let features := extract_features e
  if features = [] then (s, notProcessedResult)
  else
    let s1 : DetectorState :=
      { s with
          feature_log := s.feature_log ++ [features]
          total_processed := s.total_processed + 1 }
    let s2 : DetectorState :=
      if s1.trained = false ∧ 50 ≤ s1.feature_log.length then train_model s1 else s1
    if s2.trained then
      let is_anomaly := predict s2.fittedData features
      let s3 : DetectorState :=
        if is_anomaly then { s2 with anomaly_count := s2.anomaly_count + 1 } else s2
      (s3, { processed := true, is_anomaly := is_anomaly, classified := true })
    else
      (s2, { processed := true, is_anomaly := false, classified := false })

/-- Fold a sequence of events through process_event, keeping the state. -/
def processEvents (predict : List (List ℚ) → List ℚ → Bool)
    (s : DetectorState) (events : List Event) : DetectorState :=
  events.foldl (fun st e => (process_event predict st e).1) s

/-- Stats dictionary of CentralAnomalyDetector.get_stats
(svm_classifier.py lines 93-99). -/
structure Stats where
  trained : Bool
  total_events_processed : ℕ
  anomalies_detected : ℕ
  training_samples : ℕ
deriving DecidableEq

/-- Embedding of CentralAnomalyDetector.get_stats. -/
def get_stats (s : DetectorState) : Stats :=
  { trained := s.trained
    total_events_processed := s.total_processed
    anomalies_detected := s.anomaly_count
    training_samples := s.feature_log.length }

/-- Last-50 slice used by the novelty fragment of LLMWatchdogWrapper.generate
(inference.py line 111, the slice of the last 50 entries): for a list of at
most 50 entries this is the whole list. -/
def lastWindow (l : List (List ℚ)) : List (List ℚ) :=
  l.drop (l.length - 50)

/-- Embedding of the sliding-window novelty fragment of
LLMWatchdogWrapper.generate (inference.py lines 107-114): append the new
embedding to the stored list; if the stored list then holds strictly more
than 50 entries, score the last-50 slice with LocalOutlierFactor and return
the newest point's negative outlier factor, otherwise return no score.
lof abstracts the LocalOutlierFactor fit plus the score of the last point,
a deterministic function of the scored window. Returns the new stored list
and the optional score. -/
def noveltyInsert (lof : List (List ℚ) → ℚ)
    (embeddings : List (List ℚ)) (e : List ℚ) : List (List ℚ) × Option ℚ :=
  let embeddings1 := embeddings ++ [e]
  if 50 < embeddings1.length then
    (embeddings1, some (lof (lastWindow embeddings1)))
  else
    (embeddings1, none)

/-- Iterate noveltyInsert over a sequence of embeddings, collecting the
stored list and the per-insertion optional scores in order. This is the
harness for feeding generate's novelty fragment a stream of outputs. -/
def runInserts (lof : List (List ℚ) → ℚ) :
    List (List ℚ) → List (List ℚ) → List (List ℚ) × List (Option ℚ)
  | embeddings, [] => (embeddings, [])
  | embeddings, e :: es =>
      let r := noveltyInsert lof embeddings e
      let rest := runInserts lof r.1 es
      (rest.1, r.2 :: rest.2)

/-- One line of the JSON-lines input of process_watchdog_stream: blank
(only whitespace, skipped by the loop), malformed (json.loads raises,
logged and skipped), or a parsed event. -/
inductive FileLine where
  | blank
  | malformed
  | event (e : Event)
deriving DecidableEq

/-- Result dictionary of process_watchdog_stream. The failure dictionary
carries only success, error and anomalies; the optional fields model the
keys absent from it. -/
structure BatchResult where
  success : Bool
  error : Option String
  stats : Option Stats
  anomalies : ℕ
  total_processed : Option ℕ
  model_trained : Option Bool
deriving DecidableEq

/-- Failure dictionary returned for a missing or empty input file
(svm_classifier.py lines 108-113). -/
def missingFileResult : BatchResult :=
  { success := false
    error := some "File does not exist or is empty"
    stats := none
    anomalies := 0
    total_processed := none
    model_trained := none }

/-- Embedding of process_watchdog_stream (svm_classifier.py lines 101-147).
The filesystem is explicit: none is a missing file, some lines is the
file's content split into lines; a zero-size file has no lines. Blank and
malformed lines are skipped, parsed events run through a fresh detector,
anomalies counts results whose is_anomaly field is true. The Python
try/except wrappers make the function total; the embedding is total by
construction, so no separate catch-all branch is reachable. -/
def process_watchdog_stream (predict : List (List ℚ) → List ℚ → Bool)
    (file : Option (List FileLine)) : BatchResult :=
  match file with
  | none => missingFileResult
  | some lines =>
      if lines = [] then missingFileResult
      else
        let run : DetectorState × List ProcessResult :=
          lines.foldl
            (fun acc line =>
              match line with
              | .blank => acc
              | .malformed => acc
              | .event e =>
                  let r := process_event predict acc.1 e
                  (r.1, acc.2 ++ [r.2]))
            (initState, [])
        { success := true
          error := none
          stats := some (get_stats run.1)
          anomalies := (run.2.filter (fun r => r.is_anomaly)).length
          total_processed := some run.2.length
          model_trained := some run.1.trained }

/-- Concrete already-trained detector state used to instantiate theorems
about the post-training regime: trained on two one-dimensional samples. -/
def sampleTrained : DetectorState :=
  { trained := true
    fittedData := [[1], [2]]
    feature_log := [[1], [2]]
    anomaly_count := 0
    total_processed := 2
    fit_count := 1 }

/-- Concrete detector state one featured event away from the training
threshold: 49 buffered one-dimensional samples, untrained. -/
def sampleAlmostTrained : DetectorState :=
  { trained := false
    fittedData := []
    feature_log := List.replicate 49 [1]
    anomaly_count := 0
    total_processed := 49
    fit_count := 0 }

/-- Invariant of every detector state reachable from initState through
process_event: the buffer length tracks the processed counter, the trained
flag holds exactly from the moment the buffer reached the threshold of 50,
and the fitting block has run exactly once from that moment on. -/
def detInv (s : DetectorState) : Prop :=
  s.feature_log.length = s.total_processed ∧
  (s.trained = true ↔ 50 ≤ s.feature_log.length) ∧
  s.fit_count = if 50 ≤ s.feature_log.length then 1 else 0

theorem detInv_init : detInv initState := by
  refine ⟨rfl, ?_, ?_⟩ <;> simp [initState]

theorem step_skip (predict : List (List ℚ) → List ℚ → Bool) (s : DetectorState)
    (e : Event) (hf : extract_features e = []) :
    process_event predict s e = (s, notProcessedResult) := by
  simp [process_event, hf]

theorem step_counts (predict : List (List ℚ) → List ℚ → Bool) (s : DetectorState)
    (e : Event) (hf : extract_features e ≠ []) :
    (process_event predict s e).1.feature_log.length = s.feature_log.length + 1 ∧
    (process_event predict s e).1.total_processed = s.total_processed + 1 := by
  simp only [process_event, train_model, if_neg hf]
  split_ifs <;> simp

theorem trained_step_frozen (predict : List (List ℚ) → List ℚ → Bool)
    (s : DetectorState) (e : Event) (h : s.trained = true) :
    (process_event predict s e).1.trained = true ∧
    (process_event predict s e).1.fittedData = s.fittedData ∧
    (process_event predict s e).1.fit_count = s.fit_count := by
  by_cases hf : extract_features e = []
  · rw [step_skip predict s e hf]
    exact ⟨h, rfl, rfl⟩
  · simp only [process_event, train_model, if_neg hf]
    split_ifs <;> simp_all

theorem trained_step_result (predict : List (List ℚ) → List ℚ → Bool)
    (s : DetectorState) (e : Event) (h : s.trained = true)
    (hf : extract_features e ≠ []) :
    (process_event predict s e).2 =
      { processed := true
        is_anomaly := predict s.fittedData (extract_features e)
        classified := true } := by
  simp only [process_event, train_model, if_neg hf]
  split_ifs <;> simp_all

theorem detInv_step (predict : List (List ℚ) → List ℚ → Bool) (s : DetectorState)
    (e : Event) (h : detInv s) : detInv (process_event predict s e).1 := by
  obtain ⟨h1, h2, h3⟩ := h
  by_cases hf : extract_features e = []
  · rw [step_skip predict s e hf]
    exact ⟨h1, h2, h3⟩
  · by_cases h50 : 50 ≤ s.feature_log.length
    · have ht : s.trained = true := h2.mpr h50
      have hfr := trained_step_frozen predict s e ht
      have hc := step_counts predict s e hf
      rw [if_pos h50] at h3
      refine ⟨?_, ?_, ?_⟩
      · rw [hc.1, hc.2, h1]
      · rw [hfr.1, hc.1]
        simp only [true_iff]
        omega
      · rw [hfr.2.2, hc.1, if_pos (show 50 ≤ s.feature_log.length + 1 by omega)]
        exact h3
    · have ht : s.trained = false := by
        cases hb : s.trained
        · rfl
        · exact absurd (h2.mp hb) h50
      rw [if_neg h50] at h3
      simp only [process_event, train_model, if_neg hf, detInv]
      split_ifs <;> simp_all [List.length_append] <;> omega

theorem detInv_processEvents (predict : List (List ℚ) → List ℚ → Bool)
    (events : List Event) (s : DetectorState) (h : detInv s) :
    detInv (processEvents predict s events) := by
  induction events generalizing s with
  | nil => exact h
  | cons e es ih => exact ih _ (detInv_step predict s e h)

theorem noveltyInsert_fst (lof : List (List ℚ) → ℚ) (embeddings : List (List ℚ))
    (e : List ℚ) : (noveltyInsert lof embeddings e).1 = embeddings ++ [e] := by
  simp only [noveltyInsert]
  split_ifs <;> rfl

theorem noveltyInsert_score_iff (lof : List (List ℚ) → ℚ)
    (embeddings : List (List ℚ)) (e : List ℚ) :
    (noveltyInsert lof embeddings e).2.isSome = true ↔
      50 < embeddings.length + 1 := by
  simp only [noveltyInsert, List.length_append, List.length_cons, List.length_nil]
  split_ifs with h <;> simp_all

theorem runInserts_no_score (lof : List (List ℚ) → ℚ) (es : List (List ℚ)) :
    ∀ start : List (List ℚ), start.length + es.length ≤ 50 →
      ∀ o ∈ (runInserts lof start es).2, o = none := by
  induction es with
  | nil =>
      intro start _ o ho
      simp [runInserts] at ho
  | cons e es ih =>
      intro start h o ho
      simp only [runInserts, List.length_cons] at ho h
      rcases List.mem_cons.mp ho with h1 | h1
      · subst h1
        have hlt : ¬ 50 < start.length + 1 := by omega
        simp [noveltyInsert, hlt]
      · refine ih (noveltyInsert lof start e).1 ?_ o h1
        rw [noveltyInsert_fst]
        simp only [List.length_append, List.length_cons, List.length_nil]
        omega

/-- C1: the boundary classifier transitions from untrained to trained
exactly once. For any event stream fed to a fresh detector the fitting
block runs at most once; the trained flag holds exactly when the buffer has
reached the threshold of 50 (at which point the minimum-sample floor of 10
is automatically met, so the fit fires at the first such call); a fit has
happened exactly when the flag is set; and once the flag is set a further
process_event call never refits the model nor changes the fitted
normalization, which stays frozen. -/
theorem C1_model_fit_exactly_once (predict : List (List ℚ) → List ℚ → Bool)
    (events : List Event) (s : DetectorState) (e : Event)
    (h : s.trained = true) :
    (processEvents predict initState events).fit_count ≤ 1 ∧
    ((processEvents predict initState events).trained = true ↔
      50 ≤ (processEvents predict initState events).feature_log.length) ∧
    ((processEvents predict initState events).fit_count =
      if (processEvents predict initState events).trained = true then 1 else 0) ∧
    (process_event predict s e).1.trained = true ∧
    (process_event predict s e).1.fittedData = s.fittedData ∧
    (process_event predict s e).1.fit_count = s.fit_count := by
  obtain ⟨h1, h2, h3⟩ := detInv_processEvents predict events initState detInv_init
  have hfr := trained_step_frozen predict s e h
  refine ⟨?_, h2, ?_, hfr.1, hfr.2.1, hfr.2.2⟩
  · rw [h3]
    split_ifs <;> omega
  · by_cases h50 : 50 ≤ (processEvents predict initState events).feature_log.length
    · rw [h3, if_pos h50, if_pos (h2.mpr h50)]
    · rw [h3, if_neg h50, if_neg (fun ht => h50 (h2.mp ht))]

/-- C1 witness: the trained sample state satisfies the hypothesis, and the
theorem applied to it and a concrete stream yields the frozen-model facts. -/
theorem C1_model_fit_exactly_once_witness :
    sampleTrained.trained = true ∧
    (processEvents (fun _ _ => false) initState []).fit_count ≤ 1 ∧
    (process_event (fun _ _ => false) sampleTrained (.ood_detection 3)).1.fittedData =
      sampleTrained.fittedData :=
  ⟨rfl,
   (C1_model_fit_exactly_once (fun _ _ => false) [] sampleTrained
      (.ood_detection 3) rfl).1,
   (C1_model_fit_exactly_once (fun _ _ => false) [] sampleTrained
      (.ood_detection 3) rfl).2.2.2.2.1⟩

/-- C3: the feature extractor is total over the event data model, produces
a vector of the kind-specific dimensionality for the five known kinds, and
yields the empty vector exactly for unknown kinds, never failing. -/
theorem C3_extractor_total_dims (e : Event) :
    (extract_features e).length = specFeatureDim e ∧
    (extract_features e = [] ↔ specFeatureDim e = 0) := by
  cases e <;> simp [extract_features, specFeatureDim]

/-- C5: a message_sent event with prompt p and response r extracts exactly
the vector with the lengths of p and r and the floor-guarded ratio; the
denominator is positive always and equals 1 when the response is empty, so
the division is never by zero. -/
theorem C5_message_sent_features (prompt response : String) :
    extract_features (.message_sent prompt response) =
      [(prompt.length : ℚ), (response.length : ℚ),
        (prompt.length : ℚ) / ((max response.length 1 : ℕ) : ℚ)] ∧
    0 < ((max response.length 1 : ℕ) : ℚ) ∧
    (response = "" → ((max response.length 1 : ℕ) : ℚ) = 1) := by
  refine ⟨rfl, ?_, ?_⟩
  · exact_mod_cast Nat.lt_of_lt_of_le Nat.zero_lt_one (le_max_right _ _)
  · intro h
    subst h
    rfl

/-- C5 witness: instantiation at a two-character prompt and an empty
response, where the denominator evaluates to 1. -/
theorem C5_message_sent_features_witness :
    extract_features (.message_sent "ab" "") =
      [(("ab").length : ℚ), ((("" : String)).length : ℚ),
        (("ab").length : ℚ) / ((max ("" : String).length 1 : ℕ) : ℚ)] ∧
    ((max ("" : String).length 1 : ℕ) : ℚ) = 1 :=
  ⟨(C5_message_sent_features "ab" "").1,
   (C5_message_sent_features "ab" "").2.2 rfl⟩

/-- C6: the batch entry point, given a missing input file or an empty one,
returns a result with success false, an error message present and zero
anomalies; the embedding is a total function, so no exception reaches the
caller. -/
theorem C6_missing_or_empty_file (predict : List (List ℚ) → List ℚ → Bool)
    (file : Option (List FileLine)) (h : file = none ∨ file = some []) :
    (process_watchdog_stream predict file).success = false ∧
    ((process_watchdog_stream predict file).error).isSome = true ∧
    (process_watchdog_stream predict file).anomalies = 0 := by
  rcases h with h | h <;> subst h <;>
    simp [process_watchdog_stream, missingFileResult]

/-- C6 witness: instantiation at a missing file. -/
theorem C6_missing_or_empty_file_witness :
    (process_watchdog_stream (fun _ _ => false) none).success = false ∧
    ((process_watchdog_stream (fun _ _ => false) none).error).isSome = true ∧
    (process_watchdog_stream (fun _ _ => false) none).anomalies = 0 :=
  C6_missing_or_empty_file (fun _ _ => false) none (Or.inl rfl)

/-- C7: an event whose extracted feature vector is empty leaves the whole
detector state unchanged and produces the not-processed result: the
returned pair is exactly the prior state with notProcessedResult. -/
theorem C7_empty_features_frame (predict : List (List ℚ) → List ℚ → Bool)
    (s : DetectorState) (e : Event) (h : extract_features e = []) :
    process_event predict s e = (s, notProcessedResult) :=
  step_skip predict s e h

/-- C7 witness: instantiation at an unknown-kind event on a fresh
detector. -/
theorem C7_empty_features_frame_witness :
    process_event (fun _ _ => false) initState (.unknown "mystery") =
      (initState, notProcessedResult) :=
  C7_empty_features_frame (fun _ _ => false) initState (.unknown "mystery") rfl

/-- C8: on an already-trained detector, processing the same event twice in
succession yields the same is_anomaly verdict both times: the state
mutations performed by the first call do not touch the frozen fit, so the
classification is deterministic. -/
theorem C8_trained_verdict_deterministic (predict : List (List ℚ) → List ℚ → Bool)
    (s : DetectorState) (e : Event) (h : s.trained = true) :
    ((process_event predict (process_event predict s e).1 e).2).is_anomaly =
      ((process_event predict s e).2).is_anomaly := by
  by_cases hf : extract_features e = []
  · simp [step_skip predict s e hf]
  · have hfr := trained_step_frozen predict s e h
    have hr1 := trained_step_result predict s e h hf
    have hr2 := trained_step_result predict (process_event predict s e).1 e hfr.1 hf
    rw [hr1, hr2, hfr.2.1]

/-- C8 witness: instantiation at the trained sample state and a concrete
resource_usage event. -/
theorem C8_trained_verdict_deterministic_witness :
    sampleTrained.trained = true ∧
    ((process_event (fun _ _ => true)
        (process_event (fun _ _ => true) sampleTrained (.resource_usage 1 2)).1
        (.resource_usage 1 2)).2).is_anomaly =
      ((process_event (fun _ _ => true) sampleTrained
        (.resource_usage 1 2)).2).is_anomaly :=
  ⟨rfl,
   C8_trained_verdict_deterministic (fun _ _ => true) sampleTrained
     (.resource_usage 1 2) rfl⟩

/-- C9: from a fresh detector the buffer length equals the processed
counter after any event stream, so get_stats reports training_samples equal
to total_events_processed; and on a trained detector every featured event
still appends to the buffer and increments the counter, so both keep
growing after training. -/
theorem C9_training_samples_track_total (predict : List (List ℚ) → List ℚ → Bool)
    (events : List Event) (s : DetectorState) (e : Event)
    (h1 : s.trained = true) (h2 : extract_features e ≠ []) :
    (get_stats (processEvents predict initState events)).training_samples =
      (get_stats (processEvents predict initState events)).total_events_processed ∧
    (processEvents predict initState events).feature_log.length =
      (processEvents predict initState events).total_processed ∧
    (process_event predict s e).1.feature_log.length = s.feature_log.length + 1 ∧
    (process_event predict s e).1.total_processed = s.total_processed + 1 := by
  obtain ⟨i1, -, -⟩ := detInv_processEvents predict events initState detInv_init
  exact ⟨i1, i1, (step_counts predict s e h2).1, (step_counts predict s e h2).2⟩

/-- C9 witness: instantiation at an empty stream and the trained sample
state with a featured event. -/
theorem C9_training_samples_track_total_witness :
    sampleTrained.trained = true ∧
    extract_features (.ood_detection 3) ≠ [] ∧
    (get_stats (processEvents (fun _ _ => false) initState [])).training_samples =
      (get_stats (processEvents (fun _ _ => false) initState [])).total_events_processed ∧
    (process_event (fun _ _ => false) sampleTrained (.ood_detection 3)).1.total_processed =
      sampleTrained.total_processed + 1 :=
  ⟨rfl, by decide,
   (C9_training_samples_track_total (fun _ _ => false) [] sampleTrained
      (.ood_detection 3) rfl (by decide)).1,
   (C9_training_samples_track_total (fun _ _ => false) [] sampleTrained
      (.ood_detection 3) rfl (by decide)).2.2.2⟩

/-- C10: the 50th featured event arriving at an untrained detector triggers
the fit inside its own process_event call; the fitted training matrix
includes that event's own vector, and the call immediately scores the event
against the just-fitted boundary, returning a classified verdict. -/
theorem C10_triggering_event_classified (predict : List (List ℚ) → List ℚ → Bool)
    (s : DetectorState) (e : Event) (h1 : s.trained = false)
    (h2 : s.feature_log.length = 49) (h3 : extract_features e ≠ []) :
    (process_event predict s e).1.trained = true ∧
    (process_event predict s e).1.fittedData =
      s.feature_log ++ [extract_features e] ∧
    ((process_event predict s e).2).classified = true ∧
    ((process_event predict s e).2).is_anomaly =
      predict (s.feature_log ++ [extract_features e]) (extract_features e) := by
  simp only [process_event, train_model, if_neg h3]
  split_ifs <;> simp_all [List.length_append]

/-- C10 witness: instantiation at the 49-sample untrained state and a
concrete ood_detection event. -/
theorem C10_triggering_event_classified_witness :
    sampleAlmostTrained.trained = false ∧
    sampleAlmostTrained.feature_log.length = 49 ∧
    extract_features (.ood_detection 5) ≠ [] ∧
    (process_event (fun _ _ => false) sampleAlmostTrained (.ood_detection 5)).1.trained = true ∧
    (process_event (fun _ _ => false) sampleAlmostTrained (.ood_detection 5)).1.fittedData =
      sampleAlmostTrained.feature_log ++ [extract_features (.ood_detection 5)] :=
  ⟨rfl, by simp [sampleAlmostTrained], by decide,
   (C10_triggering_event_classified (fun _ _ => false) sampleAlmostTrained
      (.ood_detection 5) rfl (by simp [sampleAlmostTrained]) (by decide)).1,
   (C10_triggering_event_classified (fun _ _ => false) sampleAlmostTrained
      (.ood_detection 5) rfl (by simp [sampleAlmostTrained]) (by decide)).2.1⟩

set_option maxRecDepth 4000 in
/-- C2 counterexample: feeding 50 embeddings into a fresh novelty detector
leaves 50 stored entries (a full window, both as stored list and as
last-50 slice), yet the 50th insertion returns no score — refuting the
claim that a score is produced whenever the window holds at least 50
entries after the insertion. -/
theorem C2_counterexample_fiftieth_insertion :
    (runInserts (fun _ => 0) [] (List.replicate 50 [0])).1.length = 50 ∧
    (lastWindow (runInserts (fun _ => 0) [] (List.replicate 50 [0])).1).length = 50 ∧
    (runInserts (fun _ => 0) [] (List.replicate 50 [0])).2.getLast? = some none := by
  decide

/-- C2 amended: an insertion produces a novelty score if and only if the
stored embedding list holds strictly more than 50 entries after the
insertion, that is from the 51st insertion on; in particular any sequence
of at most 50 insertions into a fresh detector yields no score at all. -/
theorem C2_score_iff_strictly_over_fifty (lof : List (List ℚ) → ℚ)
    (embeddings : List (List ℚ)) (e : List ℚ) (es : List (List ℚ))
    (h : es.length ≤ 50) :
    ((noveltyInsert lof embeddings e).2.isSome = true ↔
      50 < embeddings.length + 1) ∧
    (runInserts lof [] es).2.all (fun o => o.isNone) = true := by
  refine ⟨noveltyInsert_score_iff lof embeddings e, List.all_eq_true.mpr ?_⟩
  intro o ho
  rw [runInserts_no_score lof es [] (by simpa using h) o ho]
  rfl

/-- C2 amended witness: instantiation at a stored list of 50 entries (the
next insertion is the 51st and does score) and a 3-insertion run. -/
theorem C2_score_iff_strictly_over_fifty_witness :
    (List.replicate 3 [(0 : ℚ)]).length ≤ 50 ∧
    ((noveltyInsert (fun _ => 0) (List.replicate 50 [(0 : ℚ)]) [0]).2.isSome = true ↔
      50 < (List.replicate 50 [(0 : ℚ)]).length + 1) ∧
    (runInserts (fun _ => 0) [] (List.replicate 3 [(0 : ℚ)])).2.all
      (fun o => o.isNone) = true :=
  ⟨by decide,
   (C2_score_iff_strictly_over_fifty (fun _ => 0) (List.replicate 50 [(0 : ℚ)])
      [0] (List.replicate 3 [(0 : ℚ)]) (by decide)).1,
   (C2_score_iff_strictly_over_fifty (fun _ => 0) (List.replicate 50 [(0 : ℚ)])
      [0] (List.replicate 3 [(0 : ℚ)]) (by decide)).2⟩

set_option maxRecDepth 4000 in
/-- C4 counterexample: after the 51st insertion the stored embedding list
holds 51 entries — refuting the claim that after every insertion the stored
embedding sequence holds at most 50 entries. The generate fragment never
truncates the stored list; only the scored slice is bounded. -/
theorem C4_counterexample_store_exceeds_capacity :
    (runInserts (fun _ => 0) [] (List.replicate 51 [0])).1.length = 51 ∧
    ¬ ((runInserts (fun _ => 0) [] (List.replicate 51 [0])).1.length ≤ 50) := by
  decide

/-- C4 amended: the stored embedding list grows without bound (the 51st
insertion leaves 51 entries stored), but the scoring window taken on each
insertion — the last-50 slice of the stored list — holds at most 50
entries, and on the 51st insertion that window drops exactly the 1st
(oldest) embedding while keeping the newest. -/
theorem C4_window_bounded_oldest_dropped (lof : List (List ℚ) → ℚ)
    (embeddings : List (List ℚ)) (e : List ℚ) :
    (lastWindow (noveltyInsert lof embeddings e).1).length ≤ 50 ∧
    (embeddings.length = 50 →
      lastWindow (noveltyInsert lof embeddings e).1 = embeddings.drop 1 ++ [e]) := by
  rw [noveltyInsert_fst]
  constructor
  · simp only [lastWindow, List.length_drop]
    omega
  · intro h
    have h1 : (embeddings ++ [e]).length - 50 = 1 := by simp [h]
    simp only [lastWindow, h1]
    exact List.drop_append_of_le_length (by omega)

/-- C4 amended witness: instantiation at a stored list of exactly 50
entries numbered by position, showing the window of the 51st insertion is
the last 50 of the 51 stored entries. -/
theorem C4_window_bounded_oldest_dropped_witness :
    ((List.range 50).map (fun i => [(i : ℚ)])).length = 50 ∧
    (lastWindow (noveltyInsert (fun _ => 0)
        ((List.range 50).map (fun i => [(i : ℚ)])) [50]).1).length ≤ 50 ∧
    lastWindow (noveltyInsert (fun _ => 0)
        ((List.range 50).map (fun i => [(i : ℚ)])) [50]).1 =
      ((List.range 50).map (fun i => [(i : ℚ)])).drop 1 ++ [[50]] :=
  ⟨by rw [List.length_map]; exact List.length_range 50,
   (C4_window_bounded_oldest_dropped (fun _ => 0)
      ((List.range 50).map (fun i => [(i : ℚ)])) [50]).1,
   (C4_window_bounded_oldest_dropped (fun _ => 0)
      ((List.range 50).map (fun i => [(i : ℚ)])) [50]).2
      (by rw [List.length_map]; exact List.length_range 50)⟩

end FraudDetection
